import Mathlib

/-!
Shallow embedding of the Brand Guardian audit pipeline
(backend/src/graph/state.py, backend/src/graph/nodes.py,
backend/src/services/video_indexer.py) and proofs about its
orchestration contract.

External collaborators (yt-dlp, Cloud Storage, the Video Intelligence
API, the document retriever, the LLM, and Python's `json.loads`) are
modelled as environment records of `Except`-valued functions: an
`Except.error msg` models the call raising an exception whose `str(e)`
is `msg`.  Python strings are Lean `String`s, Python lists are Lean
`List`s, and absent-or-`None` dict entries are `Option.none`.
-/

/-- Whitespace test mirroring Python's `\s` / `str.strip` on ASCII text
(space, tab, newline, carriage return, vertical tab, form feed). -/
def pyIsSpace (c : Char) : Bool :=
  c = ' ' || c = '\t' || c = '\n' || c = '\r' || c = '\x0b' || c = '\x0c'

/-- Python `s.strip()`: drop leading and trailing whitespace. -/
def pyStrip (s : String) : String :=
  String.mk (((s.data.dropWhile pyIsSpace).reverse.dropWhile pyIsSpace).reverse)

/-- One pass of Python's `re.sub(r'[^\x00-\x7F]+', ' ', s)`
(video_indexer.py line 157): each maximal run of non-ASCII characters
becomes a single space.  `inRun` records whether the previous character
was part of a non-ASCII run. -/
def subNonAsciiRun (inRun : Bool) : List Char → List Char
  | [] => []
  | c :: rest =>
    if c.toNat ≤ 0x7F then c :: subNonAsciiRun false rest
    else if inRun then subNonAsciiRun true rest
    else ' ' :: subNonAsciiRun true rest

/-- One pass of Python's `re.sub(r'\s+', ' ', s)` (video_indexer.py
line 160): each maximal whitespace run becomes a single space. -/
def collapseRun (inSpace : Bool) : List Char → List Char
  | [] => []
  | c :: rest =>
    if pyIsSpace c then
      if inSpace then collapseRun true rest
      else ' ' :: collapseRun true rest
    else c :: collapseRun false rest

/-- Character list of a markdown code fence. -/
def tripleTick : List Char := "```".data

/-- Two backticks, used to state when a payload sits cleanly inside a fence. -/
def twoTicks : List Char := "``".data

/-- Character list of the optional fence language tag. -/
def jsonTag : List Char := "json".data

/-- Python `pat in s` on character lists: `pat` occurs as a contiguous
substring. -/
def containsSub (pat : List Char) : List Char → Bool
  | [] => pat.isPrefixOf []
  | c :: rest => pat.isPrefixOf (c :: rest) || containsSub pat rest

/-- Characters strictly before the first occurrence of ` ``` `, or
`none` when there is no occurrence.  This is the lazy `(.*?)` of the
regex `r"```(?:json)?(.*?)```"` followed by its closing fence. -/
def innerUpTo : List Char → Option (List Char)
  | [] => none
  | c :: rest =>
    if tripleTick.isPrefixOf (c :: rest) then some []
    else (innerUpTo rest).map (fun l => c :: l)

/-- Leftmost match of Python's
`re.search(r"```(?:json)?(.*?)```", content, re.DOTALL)` returning
`group(1)` (nodes.py line 182): at each candidate position the opening
fence is matched, the greedy optional `json` tag is consumed when
present (backtracking over it can never help, because no closing fence
can start inside the letters `json`), and the lazy group runs up to the
first closing fence; if no closing fence follows, the scan resumes one
character further right. -/
def searchFence : List Char → Option (List Char)
  | [] => none
  | c :: rest =>
    if tripleTick.isPrefixOf (c :: rest) then
      let after := (c :: rest).drop 3
      let after2 := if jsonTag.isPrefixOf after then after.drop 4 else after
      match innerUpTo after2 with
      | some inner => some inner
      | none => searchFence rest
    else searchFence rest

/-- Markdown cleanup of nodes.py lines 179-184: when the response text
contains ` ``` `, replace it by the regex group when the regex matches,
otherwise leave the text unchanged. -/
def cleanMarkdown (content : String) : String :=
  if containsSub tripleTick content.data then
    match searchFence content.data with
    | some inner => String.mk inner
    | none => content
  else content

/-- Parsed JSON value, the result type of the `json.loads` oracle. -/
inductive JValue where
  | str (s : String)
  | num (n : Int)
  | bool (b : Bool)
  | null
  | arr (items : List JValue)
  | obj (fields : List (String × JValue))

/-- Name Python's `type(...)` would report for a value of this JSON
shape, used in modelled `AttributeError` / `TypeError` messages. -/
def pyTypeName : JValue → String
  | JValue.str _ => "str"
  | JValue.num _ => "int"
  | JValue.bool _ => "bool"
  | JValue.null => "NoneType"
  | JValue.arr _ => "list"
  | JValue.obj _ => "dict"

/-- Python `dict.get(key, default)` on a parsed JSON object; the field
list models a Python dict, so keys are unique. -/
def jget (fields : List (String × JValue)) (key : String) (dflt : JValue) : JValue :=
  (fields.lookup key).getD dflt

/-- The metadata dict built by `extract_data` (video_indexer.py
lines 188-192). -/
structure VideoMetadata where
  duration : Rat
  platform : String
  source_uri : String
deriving DecidableEq

/-- One speech alternative of a speech segment (Video Intelligence
response). -/
structure SpeechAlt where
  transcript : String
deriving DecidableEq

/-- One speech segment with its ranked alternatives. -/
structure SpeechTranscription where
  alternatives : List SpeechAlt
deriving DecidableEq

/-- One OCR block (a `text_annotations` element; the provider calls it
TextAnnotation). -/
structure OcrTextItem where
  text : String
deriving DecidableEq

/-- Segment span with protobuf time offsets converted to seconds. -/
structure VideoSegmentSpan where
  start_time_offset : Rat
  end_time_offset : Rat
deriving DecidableEq

/-- One element of a label's `segments` list. -/
structure LabelSegment where
  segment : VideoSegmentSpan
deriving DecidableEq

/-- One `segment_label_annotations` element. -/
structure SegmentLabelItem where
  segments : List LabelSegment
deriving DecidableEq

/-- One `annotation_results` element of the provider response. -/
structure AnnotationResult where
  speech_transcriptions : List SpeechTranscription
  text_annotations : List OcrTextItem
  segment_label_annotations : List SegmentLabelItem
deriving DecidableEq

/-- The provider's `AnnotateVideoResponse`. -/
structure AnnotateVideoResponse where
  annotation_results : List AnnotationResult
deriving DecidableEq

/-- Best-alternative transcript pieces in segment order
(video_indexer.py lines 134-142): segments without alternatives are
skipped, otherwise `alternatives[0].transcript` is taken. -/
def speechParts (a : AnnotationResult) : List String :=
  a.speech_transcriptions.filterMap (fun st => st.alternatives.head?.map (fun alt => alt.transcript))

/-- OCR fallback text of video_indexer.py lines 148-162: join all OCR
blocks with spaces, replace non-ASCII runs by a space, collapse
whitespace runs, strip. -/
def ocrFallbackText (a : AnnotationResult) : String :=
  pyStrip (String.mk (collapseRun false (subNonAsciiRun false
    (String.intercalate " " (a.text_annotations.map (fun t => t.text))).data)))

/-- Partial state update returned by a node: `some` models a key
present in the returned dict (graph/state.py gives every key
last-writer-wins semantics except the two `operator.add` annotated
lists). -/
structure NodeDelta where
  transcript : Option String := none
  ocr_text : Option (List String) := none
  video_metadata : Option VideoMetadata := none
  compliance_results : Option JValue := none
  final_status : Option JValue := none
  final_report : Option JValue := none
  errors : Option (List String) := none

/-- The VideoAuditState TypedDict of graph/state.py.  TypedDict keys
are unchecked at runtime and may be absent, hence the `Option` fields;
`final_status` and `final_report` hold whatever `json.loads` produced,
so they are `JValue`s.  The two annotated list fields start from the
caller-supplied `[]`. -/
structure VideoAuditState where
  video_url : String
  video_id : Option String := none
  local_file_path : Option String := none
  video_metadata : Option VideoMetadata := none
  transcript : Option String := none
  ocr_text : Option (List String) := none
  compliance_results : List JValue := []
  final_status : Option JValue := none
  final_report : Option JValue := none
  errors : List String := []

/-- Last-writer-wins update of a single non-annotated field. -/
def ovw {α : Type} (new old : Option α) : Option α :=
  match new with
  | some v => some v
  | none => old

/-- The `operator.add` reducer of graph/state.py line 19 applied to a
node's `compliance_results` entry: absent key keeps the accumulated
list, a JSON array is concatenated, and any non-list value makes
`list + value` raise `TypeError` exactly as `operator.add` would. -/
def crMerge (cur : List JValue) (dcr : Option JValue) : Except String (List JValue) :=
  match dcr with
  | none => Except.ok cur
  | some (JValue.arr xs) => Except.ok (cur ++ xs)
  | some v =>
    Except.error ("unsupported operand type(s) for +: 'list' and '" ++ pyTypeName v ++ "'")

/-- Merge one node's returned dict into the running state following
graph/state.py: `compliance_results` and `errors` concatenate
(`operator.add`), every other key overwrites when present. -/
def applyDelta (s : VideoAuditState) (d : NodeDelta) : Except String VideoAuditState :=
  match crMerge s.compliance_results d.compliance_results with
  | Except.error e => Except.error e
  | Except.ok cr =>
    Except.ok { s with
      transcript := ovw d.transcript s.transcript,
      ocr_text := ovw d.ocr_text s.ocr_text,
      video_metadata := ovw d.video_metadata s.video_metadata,
      compliance_results := cr,
      final_status := ovw d.final_status s.final_status,
      final_report := ovw d.final_report s.final_report,
      errors := s.errors ++ d.errors.getD [] }

/-- Environment of external collaborators used by the Extraction node:
yt-dlp, the GCS client, and the Video Intelligence operation.  An
`Except.error` models the underlying call raising. -/
structure ExtractionEnv where
  bucket_name : String
  ydl_download : String → String → Except String Unit
  gcs_upload : String → String → Except String Unit
  annotate : String → Except String AnnotateVideoResponse

/-- VideoIntelligenceService.download_youtube_video (video_indexer.py
lines 23-48): run yt-dlp, return the output path, and re-wrap any
failure message. -/
def download_youtube_video (env : ExtractionEnv) (url output_path : String) :
    Except String String :=
  match env.ydl_download url output_path with
  | Except.error e => Except.error ("YouTube Download Failed: " ++ e)
  | Except.ok _ => Except.ok output_path

/-- VideoIntelligenceService.upload_video (video_indexer.py
lines 51-73): upload the local file, return the `gs://` URI, and
re-wrap any failure message. -/
def upload_video (env : ExtractionEnv) (video_path video_name : String) :
    Except String String :=
  match env.gcs_upload video_path video_name with
  | Except.error e => Except.error ("GCS Upload Failed: " ++ e)
  | Except.ok _ =>
    Except.ok ("gs://" ++ env.bucket_name ++ "/videos/" ++ video_name ++ ".mp4")

/-- VideoIntelligenceService.extract_data (video_indexer.py
lines 121-193).  An empty `annotation_results` list returns the
two-key dict of line 129.  Otherwise the transcript is the stripped
space-join of the best alternatives, with the OCR fallback when that
is empty and OCR blocks exist; the duration estimate indexes
`segments[-1]`, which raises `IndexError` on an empty segment list. -/
def extract_data (bucket : String) (r : AnnotateVideoResponse) : Except String NodeDelta :=
  match r.annotation_results with
  | [] => Except.ok { transcript := some "", ocr_text := some [] }
  | annres :: _ =>
    let full0 := pyStrip (String.intercalate " " (speechParts annres))
    let full := if full0 = "" ∧ annres.text_annotations ≠ [] then ocrFallbackText annres else full0
    let ocr_lines := annres.text_annotations.map (fun t => t.text)
    match annres.segment_label_annotations with
    | [] =>
      Except.ok
        { transcript := some full
          ocr_text := some ocr_lines
          video_metadata := some
            { duration := 0
              platform := "youtube"
              source_uri := "gs://" ++ bucket ++ "/..." } }
    | sla :: _ =>
      match sla.segments.getLast? with
      | none => Except.error "list index out of range"
      | some lastSeg =>
        Except.ok
          { transcript := some full
            ocr_text := some ocr_lines
            video_metadata := some
              { duration := lastSeg.segment.end_time_offset
                platform := "youtube"
                source_uri := "gs://" ++ bucket ++ "/..." } }

/-- Body of the `try` block of index_video_node (nodes.py lines 49-74):
URL check, download, upload, annotate, extract, with each step's
exception propagating to the node's handler. -/
def indexSteps (env : ExtractionEnv) (s : VideoAuditState) : Except String NodeDelta :=
  let video_id_input := s.video_id.getD "vid_demo"
  let local_filename := "temp_" ++ video_id_input ++ ".mp4"
  match (if containsSub "youtube.com".data s.video_url.data
            || containsSub "youtu.be".data s.video_url.data
         then download_youtube_video env s.video_url local_filename
         else Except.error "Please provide a valid YouTube URL for this test.") with
  | Except.error e => Except.error e
  | Except.ok local_path =>
    match upload_video env local_path video_id_input with
    | Except.error e => Except.error e
    | Except.ok gcs_uri =>
      match env.annotate gcs_uri with
      | Except.error e => Except.error e
      | Except.ok raw => extract_data env.bucket_name raw

/-- index_video_node (nodes.py lines 38-83): on success the extracted
dict is the node's return value; any exception is caught and converted
into the four-key failure dict of lines 78-83. -/
def index_video_node (env : ExtractionEnv) (s : VideoAuditState) : NodeDelta :=
  match indexSteps env s with
  | Except.ok clean_data => clean_data
  | Except.error e =>
    { errors := some [e], final_status := some (JValue.str "FAIL"),
      transcript := some "", ocr_text := some [] }

/-- Environment of external collaborators used by the Judgment node:
the Vertex AI Search retriever (returning document page contents), the
chat model (returning the response text), and Python's `json.loads`
(returning a parsed value or the decode-error message). -/
structure AuditEnv where
  retrieve : String → Except String (List String)
  llm : String → String → Except String String
  parseJson : String → Except String JValue

/-- Externally observable calls a Judgment run makes, in order. -/
inductive CallEvent where
  | retrieveCall (query : String)
  | llmCall
  | parseCall (payload : String)
deriving DecidableEq

/-- The fixed fallback query of nodes.py line 134. -/
def fallbackQuery : String := "General Brand Safety Guidelines Compliance Rules"

/-- The retrieval query of nodes.py line 125:
`f"{transcript} {' '.join(ocr_text)}"`. -/
def auditQuery (s : VideoAuditState) : String :=
  (s.transcript.getD "") ++ " " ++ String.intercalate " " (s.ocr_text.getD [])

/-- The system prompt f-string of nodes.py lines 140-164 with the
retrieved rules spliced in (literal braces written as \x7b/\x7d). -/
def systemPrompt (retrieved_rules : String) : String :=
  "\n    You are a Senior Brand Compliance Auditor.\n    \n    OFFICIAL REGULATORY RULES:\n    "
    ++ retrieved_rules
    ++ "\n    \n    INSTRUCTIONS:\n    1. Analyze the Transcript and OCR text below.\n    2. Identify ANY violations of the rules.\n    3. Return strictly JSON in the following format:\n    \n    \x7b\n        \"compliance_results\": [\n            \x7b\n                \"category\": \"Claim Validation\",\n                \"severity\": \"CRITICAL\",\n                \"description\": \"Explanation of the violation...\"\n            \x7d\n        ],\n        \"status\": \"FAIL\", \n        \"final_report\": \"Summary of findings...\"\n    \x7d\n\n    If no violations are found, set \"status\" to \"PASS\" and \"compliance_results\" to [].\n    "

/-- Python repr of a list of strings, as an f-string renders
`ocr_text` (quote-escaping inside elements is abstracted). -/
def pyListRepr (xs : List String) : String :=
  "[" ++ String.intercalate ", " (xs.map (fun t => "'" ++ t ++ "'")) ++ "]"

/-- Python repr of `state.get('video_metadata', {})` as the user
f-string renders it (numeric formatting abstracted to `Rat`'s). -/
def metaRepr (m : Option VideoMetadata) : String :=
  match m with
  | none => "\x7b\x7d"
  | some md =>
    "\x7b'duration': " ++ toString md.duration ++ ", 'platform': '" ++ md.platform
      ++ "', 'source_uri': '" ++ md.source_uri ++ "'\x7d"

/-- The user message f-string of nodes.py lines 166-170. -/
def userMessage (s : VideoAuditState) : String :=
  "\n    VIDEO METADATA: " ++ metaRepr s.video_metadata
    ++ "\n    TRANSCRIPT: " ++ (s.transcript.getD "")
    ++ "\n    ON-SCREEN TEXT (OCR): " ++ pyListRepr (s.ocr_text.getD [])
    ++ "\n    "

/-- Message of the `AttributeError` raised when `json.loads` yields a
non-dict and the code calls `.get` on it (nodes.py lines 186-191),
caught by the node's handler. -/
def attrErr (v : JValue) : String :=
  "'" ++ pyTypeName v ++ "' object has no attribute 'get'"

/-- The `try` block of nodes.py lines 172-200 given the already
retrieved documents: one model invocation, markdown cleanup, JSON
parse, and the three `dict.get` defaults of lines 189-191; any
exception in the block (model invocation, JSON decode, `.get` on a
non-dict) is converted into the two-key failure dict of lines 197-200. -/
def auditLLM (env : AuditEnv) (s : VideoAuditState) (docs : List String)
    (trace : List CallEvent) : Except String NodeDelta × List CallEvent :=
  let retrieved_rules := String.intercalate "\n\n" docs
  match env.llm (systemPrompt retrieved_rules) (userMessage s) with
  | Except.error e =>
    (Except.ok { errors := some [e], final_status := some (JValue.str "FAIL") },
     trace ++ [CallEvent.llmCall])
  | Except.ok content =>
    let payload := pyStrip (cleanMarkdown content)
    match env.parseJson payload with
    | Except.error e =>
      (Except.ok { errors := some [e], final_status := some (JValue.str "FAIL") },
       trace ++ [CallEvent.llmCall, CallEvent.parseCall payload])
    | Except.ok (JValue.obj fields) =>
      (Except.ok
        { compliance_results := some (jget fields "compliance_results" (JValue.arr []))
          final_status := some (jget fields "status" (JValue.str "FAIL"))
          final_report := some (jget fields "final_report" (JValue.str "No report generated.")) },
       trace ++ [CallEvent.llmCall, CallEvent.parseCall payload])
    | Except.ok v =>
      (Except.ok { errors := some [attrErr v], final_status := some (JValue.str "FAIL") },
       trace ++ [CallEvent.llmCall, CallEvent.parseCall payload])

/-- audit_content_node (nodes.py lines 86-200) together with the list
of external calls it makes.  An empty (or absent) transcript
short-circuits before any external call.  The two retrieval calls of
lines 129-134 happen OUTSIDE the `try` block, so a retrieval failure
propagates out of the node (`Except.error` in the first component). -/
def audit_content_node (env : AuditEnv) (s : VideoAuditState) :
    Except String NodeDelta × List CallEvent :=
  if s.transcript.getD "" = "" then
    (Except.ok
      { final_status := some (JValue.str "FAIL")
        final_report := some (JValue.str "Audit skipped because video processing failed (No Transcript).") },
     [])
  else
    let query_text := auditQuery s
    match env.retrieve query_text with
    | Except.error e => (Except.error e, [CallEvent.retrieveCall query_text])
    | Except.ok docs0 =>
      if docs0.isEmpty then
        match env.retrieve fallbackQuery with
        | Except.error e =>
          (Except.error e, [CallEvent.retrieveCall query_text, CallEvent.retrieveCall fallbackQuery])
        | Except.ok docs1 =>
          auditLLM env s docs1 [CallEvent.retrieveCall query_text, CallEvent.retrieveCall fallbackQuery]
      else auditLLM env s docs0 [CallEvent.retrieveCall query_text]

/-- Modelled from the spec: backend/src/graph/workflow.py (the
LangGraph wiring imported by main.py and server.py) is not under src/.
Per spec section 4.3 the graph is the fixed linear pipeline
Extraction -> Judgment, each node's returned dict merged into the
state with the reducers of graph/state.py; an exception escaping a
node aborts the run. -/
def runPipeline (e1 : ExtractionEnv) (e2 : AuditEnv) (s0 : VideoAuditState) :
    Except String VideoAuditState :=
  match applyDelta s0 (index_video_node e1 s0) with
  | Except.error e => Except.error e
  | Except.ok s1 =>
    match (audit_content_node e2 s1).1 with
    | Except.error e => Except.error e
    | Except.ok d2 => applyDelta s1 d2

/-- Retrieval queries issued during a Judgment run, in order. -/
def retrieveQueries (trace : List CallEvent) : List String :=
  trace.filterMap (fun ev =>
    match ev with
    | CallEvent.retrieveCall q => some q
    | _ => none)

/-- Defined from the spec's words for claim C6 ("stripped of non-ASCII
characters and collapsed whitespace"): REMOVE every non-ASCII
character from the space-joined OCR text, then collapse whitespace
runs and strip.  Compare with `ocrFallbackText`, which replaces each
non-ASCII run by a space instead of removing it. -/
def specOcrCleanup (texts : List String) : String :=
  pyStrip (String.mk (collapseRun false
    ((String.intercalate " " texts).data.filter (fun c => c.toNat ≤ 0x7F))))

/-- The backtick character, written through its code point so that the
fence strings can be decomposed character by character. -/
def btChar : Char := Char.ofNat 96

/-- Initial state as server.py lines 64-69 builds it. -/
def initState : VideoAuditState :=
  { video_url := "https://youtu.be/dT7S75eYhcQ"
    video_id := some "vid_demo1" }

/-- State as it enters the Judgment node after a successful
extraction. -/
def auditedState : VideoAuditState :=
  { initState with transcript := some "no claims here", ocr_text := some ["SALE"] }

/-- A provider response with one speech segment and one OCR block. -/
def sampleResp : AnnotateVideoResponse :=
  { annotation_results :=
      [ { speech_transcriptions := [ { alternatives := [ { transcript := "no claims here" } ] } ]
          text_annotations := [ { text := "SALE" } ]
          segment_label_annotations := [] } ] }

/-- Extraction environment in which every external call succeeds. -/
def happyExtractionEnv : ExtractionEnv :=
  { bucket_name := "bg-bucket"
    ydl_download := fun _ _ => Except.ok ()
    gcs_upload := fun _ _ => Except.ok ()
    annotate := fun _ => Except.ok sampleResp }

/-- Extraction environment whose download step raises. -/
def failingExtractionEnv : ExtractionEnv :=
  { happyExtractionEnv with ydl_download := fun _ _ => Except.error "HTTP Error 403: Forbidden" }

/-- Extraction environment whose annotation response carries no
annotation results. -/
def emptyAnnEnv : ExtractionEnv :=
  { happyExtractionEnv with annotate := fun _ => Except.ok { annotation_results := [] } }

/-- Judgment environment in which every external call succeeds and the
model answer parses to a complete JSON object with one finding. -/
def happyAuditEnv : AuditEnv :=
  { retrieve := fun _ => Except.ok ["No unsubstantiated claims."]
    llm := fun _ _ => Except.ok "\x7b\"status\": \"PASS\"\x7d"
    parseJson := fun _ => Except.ok (JValue.obj
      [("status", JValue.str "PASS"), ("final_report", JValue.str "All good."),
       ("compliance_results", JValue.arr [JValue.obj []])]) }

/-- Judgment environment whose primary retrieval finds nothing but the
fallback query finds a document. -/
def fallbackAuditEnv : AuditEnv :=
  { happyAuditEnv with
      retrieve := fun q => if q = fallbackQuery then Except.ok ["General guidance."] else Except.ok [] }

/-- Judgment environment whose model answer parses to a JSON object
with none of the three expected keys. -/
def noKeysAuditEnv : AuditEnv :=
  { happyAuditEnv with parseJson := fun _ => Except.ok (JValue.obj []) }

/-- Judgment environment whose retrieval call raises. -/
def downAuditEnv : AuditEnv :=
  { happyAuditEnv with retrieve := fun _ => Except.error "Retriever HTTP 500" }

/-- Judgment environment whose model invocation raises. -/
def llmDownAuditEnv : AuditEnv :=
  { happyAuditEnv with llm := fun _ _ => Except.error "429 Resource exhausted" }

/-- Judgment environment whose model answer fails to parse as JSON. -/
def badJsonAuditEnv : AuditEnv :=
  { happyAuditEnv with
      llm := fun _ _ => Except.ok "Here is my analysis in plain prose."
      parseJson := fun _ => Except.error "Expecting value: line 1 column 1 (char 0)" }

/-- Annotation result with no speech and one OCR block containing a
non-ASCII character between two letters. -/
def ocrOnlyAnn : AnnotationResult :=
  { speech_transcriptions := []
    text_annotations := [ { text := "a€b" } ]
    segment_label_annotations := [] }

/-- Response wrapping `ocrOnlyAnn`. -/
def ocrOnlyResp : AnnotateVideoResponse := { annotation_results := [ocrOnlyAnn] }

/-- Annotation result with one speech segment that has no alternatives
and one OCR block. -/
def emptySpeechAnn : AnnotationResult :=
  { speech_transcriptions := [ { alternatives := [] } ]
    text_annotations := [ { text := "hi" } ]
    segment_label_annotations := [] }

/-- Response wrapping `emptySpeechAnn`. -/
def emptySpeechResp : AnnotateVideoResponse := { annotation_results := [emptySpeechAnn] }

/-- Final state of the fixture pipeline run
`runPipeline happyExtractionEnv happyAuditEnv initState`. -/
def pipelineFinalFixture : VideoAuditState :=
  { video_url := "https://youtu.be/dT7S75eYhcQ"
    video_id := some "vid_demo1"
    video_metadata := some { duration := 0, platform := "youtube", source_uri := "gs://bg-bucket/..." }
    transcript := some "no claims here"
    ocr_text := some ["SALE"]
    compliance_results := [JValue.obj []]
    final_status := some (JValue.str "PASS")
    final_report := some (JValue.str "All good.") }

/-- C2: for every input state, if any step of the Extraction node
(URL check, download, upload, annotation, extraction) raises an
exception, the node returns exactly errors equal to the one-element
list containing the exception message, final_status "FAIL", an empty
transcript and an empty ocr_text list. -/
theorem extraction_failure_contract (env : ExtractionEnv) (s : VideoAuditState) (e : String)
    (h : indexSteps env s = Except.error e) :
    index_video_node env s =
      { errors := some [e]
        final_status := some (JValue.str "FAIL")
        transcript := some ""
        ocr_text := some [] } := by
  unfold index_video_node
  rw [h]

/-- Witness for C2: a concrete run whose download step raises. -/
theorem extraction_failure_contract_witness :
    index_video_node failingExtractionEnv initState =
      { errors := some ["YouTube Download Failed: HTTP Error 403: Forbidden"]
        final_status := some (JValue.str "FAIL")
        transcript := some ""
        ocr_text := some [] } :=
  extraction_failure_contract failingExtractionEnv initState
    "YouTube Download Failed: HTTP Error 403: Forbidden" rfl

/-- C3: for every input state whose transcript is empty or absent, the
Judgment node makes no retrieval, model or parse call (empty call
trace) and returns final_status "FAIL" with the explanatory report. -/
theorem judgment_skip_contract (env : AuditEnv) (s : VideoAuditState)
    (h : s.transcript.getD "" = "") :
    audit_content_node env s =
      (Except.ok
        { final_status := some (JValue.str "FAIL")
          final_report := some (JValue.str "Audit skipped because video processing failed (No Transcript).") },
       ([] : List CallEvent)) := by
  unfold audit_content_node
  rw [if_pos h]

/-- Witness for C3: the initial state carries no transcript. -/
theorem judgment_skip_contract_witness :
    audit_content_node happyAuditEnv initState =
      (Except.ok
        { final_status := some (JValue.str "FAIL")
          final_report := some (JValue.str "Audit skipped because video processing failed (No Transcript).") },
       ([] : List CallEvent)) :=
  judgment_skip_contract happyAuditEnv initState rfl

/-- C10: for every annotation response whose annotation_results list
is empty, the Extraction node returns a dict with empty transcript and
empty ocr_text, no errors entry and no final_status key, so the run
reaches the Judgment node as a successful extraction with empty
content would. -/
theorem empty_annotation_contract (env : ExtractionEnv) (s : VideoAuditState)
    (resp : AnnotateVideoResponse)
    (hurl : (containsSub "youtube.com".data s.video_url.data
              || containsSub "youtu.be".data s.video_url.data) = true)
    (hd : env.ydl_download s.video_url ("temp_" ++ s.video_id.getD "vid_demo" ++ ".mp4") = Except.ok ())
    (hu : env.gcs_upload ("temp_" ++ s.video_id.getD "vid_demo" ++ ".mp4") (s.video_id.getD "vid_demo") = Except.ok ())
    (ha : env.annotate ("gs://" ++ env.bucket_name ++ "/videos/" ++ s.video_id.getD "vid_demo" ++ ".mp4") = Except.ok resp)
    (hr : resp.annotation_results = []) :
    index_video_node env s = { transcript := some "", ocr_text := some [] } := by
  simp [index_video_node, indexSteps, download_youtube_video, upload_video, extract_data,
    hurl, hd, hu, ha, hr]

/-- Witness for C10: a concrete run whose annotation response is
empty. -/
theorem empty_annotation_contract_witness :
    index_video_node emptyAnnEnv initState = { transcript := some "", ocr_text := some [] } :=
  empty_annotation_contract emptyAnnEnv initState { annotation_results := [] }
    rfl rfl rfl rfl rfl

/-- Helper: the model/parse phase appends no retrieval events, so the
retrieval calls of a Judgment run are exactly those recorded before
`auditLLM` starts. -/
theorem retrieveQueries_auditLLM (env : AuditEnv) (s : VideoAuditState)
    (docs : List String) (trace : List CallEvent) :
    retrieveQueries (auditLLM env s docs trace).2 = retrieveQueries trace := by
  simp only [auditLLM]
  split
  · simp [retrieveQueries]
  · split <;> simp [retrieveQueries]

/-- C7: for every Judgment run with a non-empty transcript, a primary
retrieval returning zero documents is followed by exactly one more
retrieval with the fixed fallback query, and a primary retrieval
returning at least one document is the only retrieval call. -/
theorem retrieval_fallback_contract (env : AuditEnv) (s : VideoAuditState)
    (htr : s.transcript.getD "" ≠ "") :
    (env.retrieve (auditQuery s) = Except.ok [] →
      retrieveQueries (audit_content_node env s).2 = [auditQuery s, fallbackQuery])
    ∧ (∀ d ds, env.retrieve (auditQuery s) = Except.ok (d :: ds) →
      retrieveQueries (audit_content_node env s).2 = [auditQuery s]) := by
  constructor
  · intro h
    simp only [audit_content_node, if_neg htr]
    rw [h]
    cases hfb : env.retrieve fallbackQuery with
    | error e =>
      show retrieveQueries
          [CallEvent.retrieveCall (auditQuery s), CallEvent.retrieveCall fallbackQuery] =
        [auditQuery s, fallbackQuery]
      simp [retrieveQueries]
    | ok docs1 =>
      show retrieveQueries (auditLLM env s docs1
          [CallEvent.retrieveCall (auditQuery s), CallEvent.retrieveCall fallbackQuery]).2 =
        [auditQuery s, fallbackQuery]
      rw [retrieveQueries_auditLLM]
      simp [retrieveQueries]
  · intro d ds h
    simp only [audit_content_node, if_neg htr]
    rw [h]
    show retrieveQueries (auditLLM env s (d :: ds) [CallEvent.retrieveCall (auditQuery s)]).2 =
      [auditQuery s]
    rw [retrieveQueries_auditLLM]
    simp [retrieveQueries]

/-- Witness for C7: one concrete run whose primary query finds nothing
(fallback issued once), one whose primary query finds a document (no
fallback). -/
theorem retrieval_fallback_contract_witness :
    retrieveQueries (audit_content_node fallbackAuditEnv auditedState).2 =
      [auditQuery auditedState, fallbackQuery]
    ∧ retrieveQueries (audit_content_node happyAuditEnv auditedState).2 =
      [auditQuery auditedState] :=
  ⟨(retrieval_fallback_contract fallbackAuditEnv auditedState (by decide)).1 rfl,
   (retrieval_fallback_contract happyAuditEnv auditedState (by decide)).2
     "No unsubstantiated claims." [] rfl⟩

/-- C9: for every model response that parses as a JSON object, a
missing "status" key yields final_status "FAIL" (fail closed), a
missing "final_report" key yields the fixed report
"No report generated.", and a missing "compliance_results" key yields
an empty findings list. -/
theorem parse_defaults_contract (env : AuditEnv) (s : VideoAuditState)
    (docs : List String) (content : String) (fields : List (String × JValue))
    (htr : s.transcript.getD "" ≠ "")
    (hret : env.retrieve (auditQuery s) = Except.ok docs)
    (hne : docs ≠ [])
    (hllm : env.llm (systemPrompt (String.intercalate "\n\n" docs)) (userMessage s) = Except.ok content)
    (hparse : env.parseJson (pyStrip (cleanMarkdown content)) = Except.ok (JValue.obj fields)) :
    ∃ d tr, audit_content_node env s = (Except.ok d, tr)
      ∧ (fields.lookup "status" = none → d.final_status = some (JValue.str "FAIL"))
      ∧ (fields.lookup "final_report" = none → d.final_report = some (JValue.str "No report generated."))
      ∧ (fields.lookup "compliance_results" = none → d.compliance_results = some (JValue.arr [])) := by
  obtain ⟨d0, ds0, rfl⟩ : ∃ d0 ds0, docs = d0 :: ds0 := by
    cases docs with
    | nil => exact absurd rfl hne
    | cons a b => exact ⟨a, b, rfl⟩
  refine ⟨{ compliance_results := some (jget fields "compliance_results" (JValue.arr []))
            final_status := some (jget fields "status" (JValue.str "FAIL"))
            final_report := some (jget fields "final_report" (JValue.str "No report generated.")) },
          [CallEvent.retrieveCall (auditQuery s), CallEvent.llmCall,
           CallEvent.parseCall (pyStrip (cleanMarkdown content))], ?_, ?_, ?_, ?_⟩
  · simp [audit_content_node, auditLLM, if_neg htr, hret, hllm, hparse]
  · intro hl
    simp [jget, hl]
  · intro hl
    simp [jget, hl]
  · intro hl
    simp [jget, hl]

/-- Witness for C9: a concrete run whose model answer parses to the
JSON object with no keys at all. -/
theorem parse_defaults_contract_witness :
    ∃ d tr, audit_content_node noKeysAuditEnv auditedState = (Except.ok d, tr)
      ∧ (([] : List (String × JValue)).lookup "status" = none → d.final_status = some (JValue.str "FAIL"))
      ∧ (([] : List (String × JValue)).lookup "final_report" = none → d.final_report = some (JValue.str "No report generated."))
      ∧ (([] : List (String × JValue)).lookup "compliance_results" = none → d.compliance_results = some (JValue.arr [])) :=
  parse_defaults_contract noKeysAuditEnv auditedState ["No unsubstantiated claims."]
    "\x7b\"status\": \"PASS\"\x7d" [] (by decide) rfl (by decide) rfl rfl

/-- Counterexample to C4 as stated: the two retrieval calls of
nodes.py lines 129-134 sit outside the node's `try` block, so with a
failing retriever and a non-empty transcript the Judgment node
propagates the exception out of the node invocation instead of
converting it into an errors entry. -/
theorem node_exception_counterexample :
    (audit_content_node downAuditEnv auditedState).1 = Except.error "Retriever HTTP 500" := rfl

/-- Amended C4: exceptions of the Extraction node's steps and of the
Judgment node's model-invocation and JSON-parse steps are caught at
the node boundary and converted into errors plus final_status "FAIL",
but a document-retrieval failure in the Judgment node is not caught:
it propagates out of the node. -/
theorem boundary_catch_contract :
    (∀ (env : AuditEnv) (s : VideoAuditState) (docs : List String) (e : String),
      s.transcript.getD "" ≠ "" → env.retrieve (auditQuery s) = Except.ok docs → docs ≠ [] →
      env.llm (systemPrompt (String.intercalate "\n\n" docs)) (userMessage s) = Except.error e →
      audit_content_node env s =
        (Except.ok { errors := some [e], final_status := some (JValue.str "FAIL") },
         [CallEvent.retrieveCall (auditQuery s), CallEvent.llmCall]))
    ∧ (∀ (env : AuditEnv) (s : VideoAuditState) (docs : List String) (content e : String),
      s.transcript.getD "" ≠ "" → env.retrieve (auditQuery s) = Except.ok docs → docs ≠ [] →
      env.llm (systemPrompt (String.intercalate "\n\n" docs)) (userMessage s) = Except.ok content →
      env.parseJson (pyStrip (cleanMarkdown content)) = Except.error e →
      audit_content_node env s =
        (Except.ok { errors := some [e], final_status := some (JValue.str "FAIL") },
         [CallEvent.retrieveCall (auditQuery s), CallEvent.llmCall,
          CallEvent.parseCall (pyStrip (cleanMarkdown content))]))
    ∧ (∀ (env : AuditEnv) (s : VideoAuditState) (e : String),
      s.transcript.getD "" ≠ "" → env.retrieve (auditQuery s) = Except.error e →
      (audit_content_node env s).1 = Except.error e)
    ∧ (∀ (env : ExtractionEnv) (s : VideoAuditState) (e : String),
      indexSteps env s = Except.error e →
      index_video_node env s =
        { errors := some [e]
          final_status := some (JValue.str "FAIL")
          transcript := some ""
          ocr_text := some [] }) := by
  refine ⟨?_, ?_, ?_, ?_⟩
  · intro env s docs e htr hret hne hllm
    obtain ⟨d0, ds0, rfl⟩ : ∃ d0 ds0, docs = d0 :: ds0 := by
      cases docs with
      | nil => exact absurd rfl hne
      | cons a b => exact ⟨a, b, rfl⟩
    simp [audit_content_node, auditLLM, if_neg htr, hret, hllm]
  · intro env s docs content e htr hret hne hllm hparse
    obtain ⟨d0, ds0, rfl⟩ : ∃ d0 ds0, docs = d0 :: ds0 := by
      cases docs with
      | nil => exact absurd rfl hne
      | cons a b => exact ⟨a, b, rfl⟩
    simp [audit_content_node, auditLLM, if_neg htr, hret, hllm, hparse]
  · intro env s e htr hret
    simp [audit_content_node, if_neg htr, hret]
  · intro env s e h
    unfold index_video_node
    rw [h]

/-- Witness for the amended C4: a failing model call, a failing JSON
parse, a failing retrieval, and a failing download at concrete
inputs. -/
theorem boundary_catch_contract_witness :
    audit_content_node llmDownAuditEnv auditedState =
      (Except.ok { errors := some ["429 Resource exhausted"], final_status := some (JValue.str "FAIL") },
       [CallEvent.retrieveCall (auditQuery auditedState), CallEvent.llmCall])
    ∧ audit_content_node badJsonAuditEnv auditedState =
      (Except.ok { errors := some ["Expecting value: line 1 column 1 (char 0)"], final_status := some (JValue.str "FAIL") },
       [CallEvent.retrieveCall (auditQuery auditedState), CallEvent.llmCall,
        CallEvent.parseCall (pyStrip (cleanMarkdown "Here is my analysis in plain prose."))])
    ∧ (audit_content_node downAuditEnv auditedState).1 = Except.error "Retriever HTTP 500"
    ∧ index_video_node failingExtractionEnv initState =
      { errors := some ["YouTube Download Failed: HTTP Error 403: Forbidden"]
        final_status := some (JValue.str "FAIL")
        transcript := some ""
        ocr_text := some [] } :=
  ⟨boundary_catch_contract.1 llmDownAuditEnv auditedState ["No unsubstantiated claims."]
      "429 Resource exhausted" (by decide) rfl (by decide) rfl,
   boundary_catch_contract.2.1 badJsonAuditEnv auditedState ["No unsubstantiated claims."]
      "Here is my analysis in plain prose." "Expecting value: line 1 column 1 (char 0)"
      (by decide) rfl (by decide) rfl rfl,
   boundary_catch_contract.2.2.1 downAuditEnv auditedState "Retriever HTTP 500" (by decide) rfl,
   boundary_catch_contract.2.2.2 failingExtractionEnv initState
      "YouTube Download Failed: HTTP Error 403: Forbidden" rfl⟩

/-- Helper: unfolding of one successful node merge - the annotated
fields concatenate, every other field follows last-writer-wins, and
the immutable inputs pass through. -/
theorem applyDelta_ok (s : VideoAuditState) (d : NodeDelta) (s' : VideoAuditState)
    (h : applyDelta s d = Except.ok s') :
    crMerge s.compliance_results d.compliance_results = Except.ok s'.compliance_results
    ∧ s'.errors = s.errors ++ d.errors.getD []
    ∧ s'.transcript = ovw d.transcript s.transcript
    ∧ s'.ocr_text = ovw d.ocr_text s.ocr_text
    ∧ s'.video_metadata = ovw d.video_metadata s.video_metadata
    ∧ s'.final_status = ovw d.final_status s.final_status
    ∧ s'.final_report = ovw d.final_report s.final_report
    ∧ s'.video_url = s.video_url
    ∧ s'.video_id = s.video_id
    ∧ s'.local_file_path = s.local_file_path := by
  unfold applyDelta at h
  cases hcr : crMerge s.compliance_results d.compliance_results with
  | error e =>
    rw [hcr] at h
    simp at h
  | ok cr =>
    rw [hcr] at h
    injection h with h'
    subst h'
    exact ⟨rfl, rfl, rfl, rfl, rfl, rfl, rfl, rfl, rfl, rfl⟩

/-- C1 (pipeline wiring modelled from the spec, reducers from
graph/state.py): for every successful pipeline run, the final errors
and compliance_results lists are the initial lists extended by each
node's contribution in order (additive merge, never overwritten),
while every other state field holds the value written by the most
recent node that wrote it. -/
theorem pipeline_merge_contract (e1 : ExtractionEnv) (e2 : AuditEnv)
    (s0 sf : VideoAuditState)
    (h : runPipeline e1 e2 s0 = Except.ok sf) :
    ∃ s1 d2 tr,
      applyDelta s0 (index_video_node e1 s0) = Except.ok s1
      ∧ audit_content_node e2 s1 = (Except.ok d2, tr)
      ∧ sf.errors = s0.errors ++ (index_video_node e1 s0).errors.getD [] ++ d2.errors.getD []
      ∧ crMerge s0.compliance_results (index_video_node e1 s0).compliance_results
          = Except.ok s1.compliance_results
      ∧ crMerge s1.compliance_results d2.compliance_results = Except.ok sf.compliance_results
      ∧ sf.transcript = ovw d2.transcript (ovw (index_video_node e1 s0).transcript s0.transcript)
      ∧ sf.ocr_text = ovw d2.ocr_text (ovw (index_video_node e1 s0).ocr_text s0.ocr_text)
      ∧ sf.video_metadata
          = ovw d2.video_metadata (ovw (index_video_node e1 s0).video_metadata s0.video_metadata)
      ∧ sf.final_status
          = ovw d2.final_status (ovw (index_video_node e1 s0).final_status s0.final_status)
      ∧ sf.final_report
          = ovw d2.final_report (ovw (index_video_node e1 s0).final_report s0.final_report) := by
  unfold runPipeline at h
  split at h
  · simp at h
  · next s1 hs1 =>
    split at h
    · simp at h
    · next d2 hd2 =>
      have hpair : audit_content_node e2 s1 = (Except.ok d2, (audit_content_node e2 s1).2) := by
        rw [← hd2]
      obtain ⟨hc1, he1, ht1, ho1, hv1, hf1, hr1, _, _, _⟩ := applyDelta_ok _ _ _ hs1
      obtain ⟨hc2, he2, ht2, ho2, hv2, hf2, hr2, _, _, _⟩ := applyDelta_ok _ _ _ h
      refine ⟨s1, d2, (audit_content_node e2 s1).2, hs1, hpair, ?_, hc1, hc2, ?_, ?_, ?_, ?_, ?_⟩
      · rw [he2, he1]
      · rw [ht2, ht1]
      · rw [ho2, ho1]
      · rw [hv2, hv1]
      · rw [hf2, hf1]
      · rw [hr2, hr1]

/-- Witness for C1: the fixture run in which both nodes succeed and
the Judgment node contributes one compliance entry. -/
theorem pipeline_merge_contract_witness :
    ∃ s1 d2 tr,
      applyDelta initState (index_video_node happyExtractionEnv initState) = Except.ok s1
      ∧ audit_content_node happyAuditEnv s1 = (Except.ok d2, tr)
      ∧ pipelineFinalFixture.errors
          = initState.errors ++ (index_video_node happyExtractionEnv initState).errors.getD []
            ++ d2.errors.getD []
      ∧ crMerge initState.compliance_results
          (index_video_node happyExtractionEnv initState).compliance_results
          = Except.ok s1.compliance_results
      ∧ crMerge s1.compliance_results d2.compliance_results
          = Except.ok pipelineFinalFixture.compliance_results
      ∧ pipelineFinalFixture.transcript
          = ovw d2.transcript (ovw (index_video_node happyExtractionEnv initState).transcript initState.transcript)
      ∧ pipelineFinalFixture.ocr_text
          = ovw d2.ocr_text (ovw (index_video_node happyExtractionEnv initState).ocr_text initState.ocr_text)
      ∧ pipelineFinalFixture.video_metadata
          = ovw d2.video_metadata (ovw (index_video_node happyExtractionEnv initState).video_metadata initState.video_metadata)
      ∧ pipelineFinalFixture.final_status
          = ovw d2.final_status (ovw (index_video_node happyExtractionEnv initState).final_status initState.final_status)
      ∧ pipelineFinalFixture.final_report
          = ovw d2.final_report (ovw (index_video_node happyExtractionEnv initState).final_report initState.final_report) :=
  pipeline_merge_contract happyExtractionEnv happyAuditEnv initState pipelineFinalFixture rfl

/-- Counterexample to C6 as stated: the code replaces each non-ASCII
run by a single space (video_indexer.py line 157) instead of stripping
it, so for the single OCR block "a€b" with no speech the extracted
transcript is "a b" while the claim's cleaning (non-ASCII characters
removed, whitespace collapsed, trimmed) yields "ab". -/
theorem ocr_cleanup_counterexample :
    extract_data "bg-bucket" ocrOnlyResp =
      Except.ok
        { transcript := some "a b"
          ocr_text := some ["a€b"]
          video_metadata := some { duration := 0, platform := "youtube", source_uri := "gs://bg-bucket/..." } }
    ∧ specOcrCleanup ["a€b"] = "ab"
    ∧ ("a b" : String) ≠ "ab" :=
  ⟨rfl, rfl, by decide⟩

/-- Amended C6: for every annotation result that has OCR blocks but an
empty speech-derived transcript, the extracted transcript equals the
space-joined OCR text with each maximal run of non-ASCII characters
replaced by a single space (not removed), runs of whitespace collapsed
to single spaces, and both ends trimmed. -/
theorem ocr_fallback_contract (bucket : String) (resp : AnnotateVideoResponse)
    (annres : AnnotationResult) (rest : List AnnotationResult) (d : NodeDelta)
    (h1 : resp.annotation_results = annres :: rest)
    (h2 : pyStrip (String.intercalate " " (speechParts annres)) = "")
    (h3 : annres.text_annotations ≠ [])
    (h4 : extract_data bucket resp = Except.ok d) :
    d.transcript = some (ocrFallbackText annres) := by
  unfold extract_data at h4
  rw [h1] at h4
  cases hsla : annres.segment_label_annotations with
  | nil =>
    simp only [hsla] at h4
    simp only [Except.ok.injEq] at h4
    subst h4
    simp only [if_pos (And.intro h2 h3)]
  | cons sla more =>
    simp only [hsla] at h4
    cases hl : sla.segments.getLast? with
    | none =>
      simp [hl] at h4
    | some lastSeg =>
      simp only [hl, Except.ok.injEq] at h4
      subst h4
      simp only [if_pos (And.intro h2 h3)]

/-- Witness for the amended C6: the OCR-only fixture. -/
theorem ocr_fallback_contract_witness :
    (({ transcript := some "a b"
        ocr_text := some ["a€b"]
        video_metadata := some { duration := 0, platform := "youtube", source_uri := "gs://bg-bucket/..." } } : NodeDelta)).transcript
      = some (ocrFallbackText ocrOnlyAnn) :=
  ocr_fallback_contract "bg-bucket" ocrOnlyResp ocrOnlyAnn [] _ rfl rfl (by decide) rfl

/-- Counterexample to C8 as stated: an annotation result with one
speech segment that has no alternatives and the OCR block "hi" - the
claim predicts the transcript equals the trimmed space-join of the
best alternatives (the empty string), but the OCR fallback makes the
extracted transcript "hi". -/
theorem speech_join_counterexample :
    emptySpeechAnn.speech_transcriptions ≠ []
    ∧ pyStrip (String.intercalate " " (speechParts emptySpeechAnn)) = ""
    ∧ extract_data "bg-bucket" emptySpeechResp =
        Except.ok
          { transcript := some "hi"
            ocr_text := some ["hi"]
            video_metadata := some { duration := 0, platform := "youtube", source_uri := "gs://bg-bucket/..." } }
    ∧ some ("hi" : String) ≠ some ("" : String) :=
  ⟨by decide, rfl, rfl, by decide⟩

/-- Amended C8: for every annotation result with at least one speech
segment, the extracted transcript equals the trimmed space-join of the
first alternative's transcript of each segment that has alternatives -
provided that join is non-empty or the result has no OCR blocks
(otherwise the OCR fallback takes over). -/
theorem speech_join_contract (bucket : String) (resp : AnnotateVideoResponse)
    (annres : AnnotationResult) (rest : List AnnotationResult) (d : NodeDelta)
    (h1 : resp.annotation_results = annres :: rest)
    (h2 : annres.speech_transcriptions ≠ [])
    (h3 : pyStrip (String.intercalate " " (speechParts annres)) ≠ "" ∨ annres.text_annotations = [])
    (h4 : extract_data bucket resp = Except.ok d) :
    d.transcript = some (pyStrip (String.intercalate " " (speechParts annres))) := by
  have hcond : ¬ (pyStrip (String.intercalate " " (speechParts annres)) = ""
      ∧ annres.text_annotations ≠ []) := by
    rcases h3 with h3 | h3
    · exact fun hc => h3 hc.1
    · exact fun hc => hc.2 h3
  unfold extract_data at h4
  rw [h1] at h4
  cases hsla : annres.segment_label_annotations with
  | nil =>
    simp only [hsla] at h4
    simp only [Except.ok.injEq] at h4
    subst h4
    simp only [if_neg hcond]
  | cons sla more =>
    simp only [hsla] at h4
    cases hl : sla.segments.getLast? with
    | none =>
      simp [hl] at h4
    | some lastSeg =>
      simp only [hl, Except.ok.injEq] at h4
      subst h4
      simp only [if_neg hcond]

/-- Witness for the amended C8: the one-segment fixture response. -/
theorem speech_join_contract_witness :
    (({ transcript := some "no claims here"
        ocr_text := some ["SALE"]
        video_metadata := some { duration := 0, platform := "youtube", source_uri := "gs://bg-bucket/..." } } : NodeDelta)).transcript
      = some (pyStrip (String.intercalate " "
          (speechParts { speech_transcriptions := [ { alternatives := [ { transcript := "no claims here" } ] } ]
                         text_annotations := [ { text := "SALE" } ]
                         segment_label_annotations := [] }))) :=
  speech_join_contract "bg-bucket" sampleResp
    { speech_transcriptions := [ { alternatives := [ { transcript := "no claims here" } ] } ]
      text_annotations := [ { text := "SALE" } ]
      segment_label_annotations := [] }
    [] _ rfl (by decide) (Or.inl (by decide)) rfl

/-- Helper: a prefix of an appended list that fits inside the left
part is already a prefix of the left part. -/
theorem isPrefixOf_append_left (p a b : List Char)
    (h : p.isPrefixOf (a ++ b) = true) (hlen : p.length ≤ a.length) :
    p.isPrefixOf a = true := by
  rw [List.isPrefixOf_iff_prefix] at h ⊢
  rw [List.prefix_iff_eq_take] at h ⊢
  rw [List.take_append_of_le_length hlen] at h
  exact h

/-- Helper: a list is a prefix of itself followed by anything. -/
theorem isPrefixOf_append_self (l m : List Char) : l.isPrefixOf (l ++ m) = true := by
  rw [List.isPrefixOf_iff_prefix]
  exact List.prefix_append l m

/-- Helper: when a payload followed by two backticks contains no
fence, the lazy group runs exactly up to the appended closing
fence. -/
theorem innerUpTo_append (l : List Char)
    (h : containsSub tripleTick (l ++ twoTicks) = false) :
    innerUpTo (l ++ tripleTick) = some l := by
  induction l with
  | nil => decide
  | cons c l' ih =>
    rw [List.cons_append] at h
    rw [show containsSub tripleTick (c :: (l' ++ twoTicks))
        = (tripleTick.isPrefixOf (c :: (l' ++ twoTicks)) || containsSub tripleTick (l' ++ twoTicks))
        from rfl] at h
    rw [Bool.or_eq_false_iff] at h
    obtain ⟨hh, ht⟩ := h
    have h2t : twoTicks ++ [btChar] = tripleTick := by decide
    have hnp : tripleTick.isPrefixOf (c :: (l' ++ tripleTick)) = false := by
      by_contra hcon
      rw [Bool.not_eq_false] at hcon
      have hsplit : c :: (l' ++ tripleTick) = (c :: (l' ++ twoTicks)) ++ [btChar] := by
        rw [List.cons_append, List.append_assoc, h2t]
      rw [hsplit] at hcon
      have hlen : tripleTick.length ≤ (c :: (l' ++ twoTicks)).length := by
        rw [show tripleTick.length = 3 from by decide]
        rw [List.length_cons, List.length_append]
        rw [show twoTicks.length = 2 from by decide]
        omega
      rw [isPrefixOf_append_left _ _ _ hcon hlen] at hh
      cases hh
    rw [List.cons_append]
    rw [show innerUpTo (c :: (l' ++ tripleTick))
        = (if tripleTick.isPrefixOf (c :: (l' ++ tripleTick)) then some []
           else (innerUpTo (l' ++ tripleTick)).map (fun l => c :: l)) from rfl]
    rw [hnp]
    simp [ih ht]

/-- Helper: one unfolding step of the regex scan at a non-empty
text. -/
theorem searchFence_cons_eq (c : Char) (rest : List Char) :
    searchFence (c :: rest) =
      (if tripleTick.isPrefixOf (c :: rest) then
        match innerUpTo (if jsonTag.isPrefixOf ((c :: rest).drop 3)
            then ((c :: rest).drop 3).drop 4 else (c :: rest).drop 3) with
        | some inner => some inner
        | none => searchFence rest
      else searchFence rest) := by
  simp only [searchFence]

/-- Helper: the regex match at a text that opens with a fence and the
json tag. -/
theorem searchFence_tagged (inner : List Char)
    (h : innerUpTo (inner ++ tripleTick) = some inner) :
    searchFence (tripleTick ++ (jsonTag ++ (inner ++ tripleTick))) = some inner := by
  have e3 : tripleTick = [btChar, btChar, btChar] := by decide
  rw [show tripleTick ++ (jsonTag ++ (inner ++ tripleTick))
      = btChar :: btChar :: btChar :: 'j' :: 's' :: 'o' :: 'n' :: (inner ++ tripleTick) from by
    rw [e3, show jsonTag = ['j', 's', 'o', 'n'] from by decide]
    rfl]
  rw [searchFence_cons_eq]
  have hpre : tripleTick.isPrefixOf
      (btChar :: btChar :: btChar :: 'j' :: 's' :: 'o' :: 'n' :: (inner ++ tripleTick)) = true := by
    rw [e3]
    simp [List.isPrefixOf]
  rw [if_pos hpre]
  rw [show (btChar :: btChar :: btChar :: 'j' :: 's' :: 'o' :: 'n' :: (inner ++ tripleTick)).drop 3
      = 'j' :: 's' :: 'o' :: 'n' :: (inner ++ tripleTick) from rfl]
  have hjs : jsonTag.isPrefixOf ('j' :: 's' :: 'o' :: 'n' :: (inner ++ tripleTick)) = true := by
    rw [show jsonTag = ['j', 's', 'o', 'n'] from by decide]
    simp [List.isPrefixOf]
  rw [if_pos hjs]
  rw [show ('j' :: 's' :: 'o' :: 'n' :: (inner ++ tripleTick)).drop 4 = inner ++ tripleTick from rfl]
  rw [h]

/-- Helper: the regex match at a text that opens with a bare fence,
when the payload does not look like the json tag. -/
theorem searchFence_untagged (inner : List Char)
    (h : innerUpTo (inner ++ tripleTick) = some inner)
    (hj : jsonTag.isPrefixOf (inner ++ tripleTick) = false) :
    searchFence (tripleTick ++ (inner ++ tripleTick)) = some inner := by
  have e3 : tripleTick = [btChar, btChar, btChar] := by decide
  rw [show tripleTick ++ (inner ++ tripleTick)
      = btChar :: btChar :: btChar :: (inner ++ tripleTick) from by rw [e3]; rfl]
  rw [searchFence_cons_eq]
  have hpre : tripleTick.isPrefixOf
      (btChar :: btChar :: btChar :: (inner ++ tripleTick)) = true := by
    rw [e3]
    simp [List.isPrefixOf]
  rw [if_pos hpre]
  rw [show (btChar :: btChar :: btChar :: (inner ++ tripleTick)).drop 3
      = inner ++ tripleTick from rfl]
  rw [if_neg (by simp [hj])]
  rw [h]

/-- Helper: a payload that does not start with the json tag still does
not start with it after the closing fence is appended (the fence's
backticks cannot complete the tag's letters). -/
theorem jsonTag_not_starting (inner : List Char)
    (hj : jsonTag.isPrefixOf inner = false) :
    jsonTag.isPrefixOf (inner ++ tripleTick) = false := by
  have e4 : jsonTag = ['j', 's', 'o', 'n'] := by decide
  have e3 : tripleTick = [btChar, btChar, btChar] := by decide
  rcases inner with _ | ⟨a, _ | ⟨b, _ | ⟨c, _ | ⟨d, rest⟩⟩⟩⟩
  · decide
  · rw [e4, e3]
    simp [List.isPrefixOf, show ('s' == btChar) = false from by decide]
  · rw [e4, e3]
    simp [List.isPrefixOf, show ('o' == btChar) = false from by decide]
  · rw [e4, e3]
    simp [List.isPrefixOf, show ('n' == btChar) = false from by decide]
  · rw [e4] at hj ⊢
    simp only [List.cons_append, List.isPrefixOf] at hj ⊢
    exact hj

/-- Helper: a text that opens with a fence contains one. -/
theorem containsSub_tb_head (x : List Char) :
    containsSub tripleTick (tripleTick ++ x) = true := by
  have e3 : tripleTick = [btChar, btChar, btChar] := by decide
  rw [e3]
  simp only [List.cons_append, List.nil_append]
  rw [show containsSub [btChar, btChar, btChar] (btChar :: btChar :: btChar :: x)
      = ([btChar, btChar, btChar].isPrefixOf (btChar :: btChar :: btChar :: x)
        || containsSub [btChar, btChar, btChar] (btChar :: btChar :: x)) from rfl]
  rw [show [btChar, btChar, btChar].isPrefixOf (btChar :: btChar :: btChar :: x) = true from by
    simp [List.isPrefixOf]]
  simp

/-- Helper: rebuilding a string from its characters is the identity. -/
theorem string_mk_data (s : String) : String.mk s.data = s := rfl

/-- C5: a model response wrapping a payload in a markdown code fence -
with or without the json language tag - is unwrapped to the fenced
inner text (then stripped) before JSON parsing, and a response with no
triple backticks reaches parsing unchanged (stripping apart).  The
payload hypotheses say the fence is clean: the payload does not
contain a fence and does not end in backticks that would merge with
the closing fence, and in the untagged case does not start with the
letters "json" (no valid JSON payload does). -/
theorem fence_unwrap_contract :
    (∀ inner : String, containsSub tripleTick (inner.data ++ twoTicks) = false →
      cleanMarkdown ("```json" ++ inner ++ "```") = inner)
    ∧ (∀ inner : String, containsSub tripleTick (inner.data ++ twoTicks) = false →
      jsonTag.isPrefixOf inner.data = false →
      cleanMarkdown ("```" ++ inner ++ "```") = inner)
    ∧ (∀ content : String, containsSub tripleTick content.data = false →
      cleanMarkdown content = content) := by
  refine ⟨?_, ?_, ?_⟩
  · intro inner h
    have hdata : ("```json" ++ inner ++ "```").data
        = tripleTick ++ (jsonTag ++ (inner.data ++ tripleTick)) := by
      rw [String.data_append, String.data_append]
      rw [show "```json".data = tripleTick ++ jsonTag from by decide]
      rw [show "```".data = tripleTick from rfl]
      rw [List.append_assoc, List.append_assoc]
    unfold cleanMarkdown
    rw [hdata]
    rw [if_pos (containsSub_tb_head _)]
    rw [searchFence_tagged inner.data (innerUpTo_append inner.data h)]
  · intro inner h hj
    have hdata : ("```" ++ inner ++ "```").data
        = tripleTick ++ (inner.data ++ tripleTick) := by
      rw [String.data_append, String.data_append]
      rw [show "```".data = tripleTick from rfl]
      rw [List.append_assoc]
    unfold cleanMarkdown
    rw [hdata]
    rw [if_pos (containsSub_tb_head _)]
    rw [searchFence_untagged inner.data (innerUpTo_append inner.data h)
      (jsonTag_not_starting inner.data hj)]
  · intro content h
    unfold cleanMarkdown
    rw [if_neg (by simp [h])]

/-- Witness for C5: a tagged fenced payload, an untagged fenced
payload, and a bare payload at concrete strings. -/
theorem fence_unwrap_contract_witness :
    cleanMarkdown ("```json" ++ "\x7b\"status\": \"PASS\"\x7d" ++ "```") = "\x7b\"status\": \"PASS\"\x7d"
    ∧ cleanMarkdown ("```" ++ "\x7b\"status\": \"FAIL\"\x7d" ++ "```") = "\x7b\"status\": \"FAIL\"\x7d"
    ∧ cleanMarkdown "\x7b\"compliance_results\": []\x7d" = "\x7b\"compliance_results\": []\x7d" :=
  ⟨fence_unwrap_contract.1 "\x7b\"status\": \"PASS\"\x7d" (by decide),
   fence_unwrap_contract.2.1 "\x7b\"status\": \"FAIL\"\x7d" (by decide) (by decide),
   fence_unwrap_contract.2.2 "\x7b\"compliance_results\": []\x7d" (by decide)⟩
